import Mathlib

/-
Verification of the meal-planning and nutrition-tracking core of the
nutricionLLM repository. The data model and operations are shallowly embedded
from the TypeScript sources (src/frontend/src and the unnamed frontend files):
JavaScript numbers are modelled as rationals, nullable fields as Option, and
reference dates at day granularity. Backend pieces that are documented but not
shipped in the source tree are modelled from the specification and marked as
such in their doc comments.
-/

namespace NutriAI

/-- Record of the four tracked nutrition quantities (calories, protein, carbs,
fats), as they appear throughout src/frontend/src/types/api.ts. -/
structure Macros where
  calories : ℚ
  protein : ℚ
  carbs : ℚ
  fats : ℚ
deriving DecidableEq

/-- Zero totals, the reduce accumulator used by the frontend aggregations. -/
def Macros.zero : Macros := ⟨0, 0, 0, 0⟩

/-- Componentwise addition of macro records. -/
def Macros.add (a b : Macros) : Macros :=
  ⟨a.calories + b.calories, a.protein + b.protein,
   a.carbs + b.carbs, a.fats + b.fats⟩

/-- Sum of a list of macro records. -/
def Macros.sumList (l : List Macros) : Macros := l.foldr Macros.add Macros.zero

/-- Meal types a meal slot can have (api.ts MealSlot.meal_type). -/
inductive SlotMealType
  | breakfast
  | lunch
  | dinner
deriving DecidableEq, BEq, Fintype

/-- Meal types a food log can have (api.ts FoodLog.meal_type, includes snack). -/
inductive LogMealType
  | breakfast
  | lunch
  | dinner
  | snack
deriving DecidableEq, BEq

/-- Recipe record (api.ts Recipe). -/
structure Recipe where
  id : Option ℤ
  name : String
  ingredients : String
  steps : String
  calories : ℚ
  protein : ℚ
  carbs : ℚ
  fats : ℚ
  prep_time_minutes : ℚ
  meal_type : String
deriving DecidableEq

/-- Meal slot record (api.ts MealSlot); recipe is the nullable reference id and
recipe_detail the serialized referenced recipe (null exactly when recipe is). -/
structure MealSlot where
  id : ℤ
  meal_plan : ℤ
  day_of_week : ℤ
  day_name : String
  meal_type : SlotMealType
  meal_name : String
  recipe : Option ℤ
  recipe_detail : Option Recipe
  is_leftover : Bool
  original_meal_slot : Option ℤ
  notes : String
  date : String
deriving DecidableEq

/-- Meal plan record (api.ts MealPlan). -/
structure MealPlan where
  id : ℤ
  user : ℤ
  week_start_date : String
  week_end_date : String
  meal_slots : List MealSlot
deriving DecidableEq

/-- USDA food record (api.ts Food); nutrient fields are nullable. -/
structure Food where
  id : ℤ
  fdc_id : ℤ
  description : String
  brand_owner : String
  barcode : String
  ingredients : String
  category : String
  serving_size : Option ℚ
  serving_size_unit : String
  calories : Option ℚ
  protein : Option ℚ
  carbs : Option ℚ
  fats : Option ℚ
  fiber : Option ℚ
  sugars : Option ℚ
  sodium : Option ℚ
deriving DecidableEq

/-- Food log record (api.ts FoodLog); the food_detail denormalization and the
display strings are omitted because no embedded operation reads them. -/
structure FoodLog where
  id : ℤ
  user : ℤ
  food : ℤ
  date : String
  meal_type : LogMealType
  quantity_grams : ℚ
  calories : ℚ
  protein : ℚ
  carbs : ℚ
  fats : ℚ
deriving DecidableEq

/-- Nullable per-meal macro record (api.ts DailyNutritionTotals.by_meal values,
each macro individually nullable). -/
structure NullableMacros where
  calories : Option ℚ
  protein : Option ℚ
  carbs : Option ℚ
  fats : Option ℚ
deriving DecidableEq

/-- PATCH body for a meal slot (api.ts MealSlotUpdateRequest): each field is
optionally present, and the recipe and original_meal_slot fields can be
explicitly null. -/
structure MealSlotUpdateRequest where
  recipe : Option (Option ℤ)
  is_leftover : Option Bool
  original_meal_slot : Option (Option ℤ)
  notes : Option String
deriving DecidableEq

namespace WeeklyMealPlanner

/-- Embedded from WeeklyMealPlanner.tsx: the mealOrder table used by the
per-day sort (breakfast 0, lunch 1, dinner 2). -/
def mealOrder : SlotMealType → ℤ
  | .breakfast => 0
  | .lunch => 1
  | .dinner => 2

/-- Embedded from WeeklyMealPlanner.tsx getMealSlotsByDay: returns [] when no
plan is loaded, otherwise the slots of the given day sorted by meal order
(stable sort, matching the JavaScript comparator mealOrder[a] - mealOrder[b]). -/
def getMealSlotsByDay (mealPlan : Option MealPlan) (dayOfWeek : ℤ) : List MealSlot :=
  match mealPlan with
  | none => []
  | some plan =>
      (plan.meal_slots.filter (fun s => s.day_of_week == dayOfWeek)).mergeSort
        (fun a b => decide (mealOrder a.meal_type ≤ mealOrder b.meal_type))

/-- Embedded from WeeklyMealPlanner.tsx getDailyTotals: the reduce step adds
the macros of slot.recipe_detail to the accumulator when it is non-null. -/
def addSlot (totals : Macros) (slot : MealSlot) : Macros :=
  match slot.recipe_detail with
  | some r =>
      ⟨totals.calories + r.calories, totals.protein + r.protein,
       totals.carbs + r.carbs, totals.fats + r.fats⟩
  | none => totals

/-- Embedded from WeeklyMealPlanner.tsx getDailyTotals: reduce over the day
slots starting from the zero accumulator. -/
def getDailyTotals (mealPlan : Option MealPlan) (dayOfWeek : ℤ) : Macros :=
  (getMealSlotsByDay mealPlan dayOfWeek).foldl addSlot ⟨0, 0, 0, 0⟩

/-- The contribution of a single slot to the day totals: the full macros of the
referenced recipe when a recipe is attached, zero otherwise. Note it does not
look at is_leftover. -/
def slotMacros (s : MealSlot) : Macros :=
  match s.recipe_detail with
  | some r => ⟨r.calories, r.protein, r.carbs, r.fats⟩
  | none => Macros.zero

/-- Embedded from WeeklyMealPlanner.tsx navigateWeek: the reference date is
copied and shifted by plus or minus 7 days via setDate, which
JavaScript normalizes to exactly that many days; dates are modelled as
day numbers. The useEffect on currentDate then re-resolves the week. -/
inductive NavDirection
  | prev
  | next
deriving DecidableEq

def navigateWeek (currentDate : ℤ) (direction : NavDirection) : ℤ :=
  currentDate + (match direction with | .next => 7 | .prev => -7)

end WeeklyMealPlanner

namespace mealPlanningService

/-- Embedded from mealPlanning.ts clearMealSlot: the PATCH body sent to
/meal-slots/id/ resets all four mutable fields in one request. -/
def clearMealSlotBody : MealSlotUpdateRequest :=
  { recipe := some none
    is_leftover := some false
    original_meal_slot := some none
    notes := some "" }

/-- Modelled from the spec: the backend PATCH /meal-slots/id/ handler is not
under src/. Following section 6 of the spec, the PATCH applies exactly the
provided subset of the four mutable fields and leaves every other field of the
slot unchanged; the serialized recipe_detail mirrors the recipe reference, so
patching recipe to null nulls it as well. -/
def applyMealSlotPatch (s : MealSlot) (r : MealSlotUpdateRequest) : MealSlot :=
  { s with
    recipe := r.recipe.getD s.recipe
    is_leftover := r.is_leftover.getD s.is_leftover
    original_meal_slot := r.original_meal_slot.getD s.original_meal_slot
    notes := r.notes.getD s.notes
    recipe_detail :=
      match r.recipe with
      | some none => none
      | some (some _) => s.recipe_detail
      | none => s.recipe_detail }

end mealPlanningService

namespace testUtils

/-- Embedded from test/utils.tsx createMockWeekSlots: the day names list. -/
def dayNames : List String :=
  ["Monday", "Tuesday", "Wednesday", "Thursday", "Friday", "Saturday", "Sunday"]

/-- Embedded from test/utils.tsx createMockWeekSlots: the meals list. -/
def weekMeals : List (SlotMealType × String) :=
  [(.breakfast, "Breakfast"), (.lunch, "Lunch"), (.dinner, "Dinner")]

/-- Single decimal digit character, for the template literal below. -/
def digitChar (n : ℕ) : Char := Char.ofNat (48 + n)

/-- Embedded from test/utils.tsx createMockWeekSlots: the slot date template
literal 2024-01-0 followed by dayIndex + 1. -/
def mockSlotDate (dayIndex : ℕ) : String :=
  "2024-01-0" ++ String.mk [digitChar (dayIndex + 1)]

/-- Embedded from test/utils.tsx createMockMealSlot with the overrides passed
by createMockWeekSlots; ids follow the incrementing mealSlotIdCounter. -/
def mockWeekSlot (mealPlanId : ℤ) (dayIndex : ℕ) (dayName : String)
    (mealIndex : ℕ) (mt : SlotMealType) (mealName : String) : MealSlot :=
  { id := ((3 * dayIndex + mealIndex + 1 : ℕ) : ℤ)
    meal_plan := mealPlanId
    day_of_week := (dayIndex : ℤ)
    day_name := dayName
    meal_type := mt
    meal_name := mealName
    recipe := none
    recipe_detail := none
    is_leftover := false
    original_meal_slot := none
    notes := ""
    date := mockSlotDate dayIndex }

/-- Embedded from test/utils.tsx createMockWeekSlots: the two nested forEach
loops over days and meals producing 21 slots. -/
def createMockWeekSlots (mealPlanId : ℤ) : List MealSlot :=
  (dayNames.enum).flatMap (fun di =>
    (weekMeals.enum).map (fun mi =>
      mockWeekSlot mealPlanId di.1 di.2 mi.1 mi.2.1 mi.2.2))

/-- Embedded from test/utils.tsx createMockMealPlan at its defaults (the
overrides parameter is not used by the properties below). -/
def createMockMealPlan : MealPlan :=
  { id := 1
    user := 1
    week_start_date := "2024-01-01"
    week_end_date := "2024-01-07"
    meal_slots := createMockWeekSlots 1 }

end testUtils

/-- Days from civil date (proleptic Gregorian calendar, epoch 1970-01-01),
for CE years; the standard era/year-of-era decomposition, with all division
operands non-negative so every integer division convention agrees. -/
def civilToDays (y m d : ℤ) : ℤ :=
  let y1 := y - (if m ≤ 2 then 1 else 0)
  let era := y1 / 400
  let yoe := y1 - era * 400
  let mp := (m + 9) % 12
  let doy := (153 * mp + 2) / 5 + d - 1
  let doe := yoe * 365 + yoe / 4 - yoe / 100 + doy
  era * 146097 + doe - 719468

/-- Parses a list of decimal digit characters. -/
def parseNatDigits (cs : List Char) : Option ℕ :=
  if cs ≠ [] ∧ cs.all Char.isDigit then
    some (cs.foldl (fun n c => 10 * n + (c.toNat - 48)) 0)
  else none

/-- Parses a YYYY-MM-DD date string into year, month and day. -/
def parseDateYMD (s : String) : Option (ℤ × ℤ × ℤ) :=
  match s.data.splitOn '-' with
  | [ys, ms, ds] =>
    match parseNatDigits ys, parseNatDigits ms, parseNatDigits ds with
    | some y, some m, some d => some ((y : ℤ), (m : ℤ), (d : ℤ))
    | _, _, _ => none
  | _ => none

/-- Day ordinal of a YYYY-MM-DD date string. -/
def dateOrdinal (s : String) : Option ℤ :=
  (parseDateYMD s).map (fun t => civilToDays t.1 t.2.1 t.2.2)

namespace RecipeGenerator

/-- State of the RecipeGenerator component that onSubmit writes
(RecipeGenerator.tsx lines 19 to 52). -/
structure GeneratorState where
  generatedRecipe : Option Recipe
  isGenerating : Bool
  generateError : String
  saveSuccess : String
  saveError : String
deriving DecidableEq

/-- Embedded from RecipeGenerator.tsx onSubmit: serviceResult is the outcome
of recipeService.generateRecipe, where the error side carries whatever the
request surfaced (possibly the raw model output). The catch branch discards
the error value and stores a fixed message. -/
def onSubmitOutcome (serviceResult : Except String Recipe) : GeneratorState :=
  match serviceResult with
  | .ok recipe =>
      { generatedRecipe := some recipe
        isGenerating := false
        generateError := ""
        saveSuccess := ""
        saveError := "" }
  | .error _ =>
      { generatedRecipe := none
        isGenerating := false
        generateError := "Failed to generate recipe. Please try again."
        saveSuccess := ""
        saveError := "" }

end RecipeGenerator

/-- Error raised when both LLM attempts produce invalid output. -/
inductive GenError
  | GenerationFailed
deriving DecidableEq

/-- Outcome of one run of the recipe generation pipeline: how many outbound
LLM calls were issued, the result, and which recipes were persisted. -/
structure GenOutcome where
  llmCalls : ℕ
  result : Except GenError Recipe
  persistedRecipes : List Recipe

namespace RecipeGenerationPipeline

/-- Modelled from the spec: the backend pipeline (recipes llm_service.py and
RecipeGenerationView) is not included under src/; only documentation and the
frontend caller are. Section 4.2 of the spec: FirstAttempt calls the LLM
exactly once and validates the text against the Recipe schema; on failure,
Repairing issues exactly one correction call embedding the malformed text;
if that also fails validation the pipeline raises GenerationFailed and no
Recipe row is created; on success the validated payload is returned without
being persisted (persistence is the responsibility of the caller). Here
respond n is the response text of the n-th outbound LLM call and validate is
the JSON schema validation. -/
def run (respond : ℕ → String) (validate : String → Option Recipe) : GenOutcome :=
  match validate (respond 0) with
  | some r => { llmCalls := 1, result := .ok r, persistedRecipes := [] }
  | none =>
    match validate (respond 1) with
    | some r => { llmCalls := 2, result := .ok r, persistedRecipes := [] }
    | none =>
      { llmCalls := 2
        result := .error .GenerationFailed
        persistedRecipes := [] }

end RecipeGenerationPipeline

namespace NutritionAggregator

/-- Modelled from the spec: the backend daily_totals endpoint (the food log
app views) is not under src/; only its TypeScript response type
(DailyNutritionTotals in api.ts), the service caller and test fixtures are.
Section 4.3 of the spec, dailyTotals(date, foodLogs): groups the logs of the
date by meal_type. logsFor selects the logs of one meal type on the date. -/
def logsFor (date : String) (mt : LogMealType) (logs : List FoodLog) : List FoodLog :=
  logs.filter (fun l => l.date == date && l.meal_type == mt)

/-- Modelled from the spec: section 4.3, the per-meal breakdown of
dailyTotals. A meal type with zero logs reports null for each macro, not 0;
otherwise each macro is the sum over that meal type on the date. -/
def byMealTotals (date : String) (mt : LogMealType) (logs : List FoodLog) : NullableMacros :=
  match logsFor date mt logs with
  | [] => ⟨none, none, none, none⟩
  | ls =>
      ⟨some ((ls.map FoodLog.calories).sum),
       some ((ls.map FoodLog.protein).sum),
       some ((ls.map FoodLog.carbs).sum),
       some ((ls.map FoodLog.fats).sum)⟩

/-- Modelled from the spec: section 4.3, the day-level totals of dailyTotals,
summed across all logs of the date. -/
def totalsFor (date : String) (logs : List FoodLog) : Macros :=
  let ls := logs.filter (fun l => l.date == date)
  ⟨(ls.map FoodLog.calories).sum, (ls.map FoodLog.protein).sum,
   (ls.map FoodLog.carbs).sum, (ls.map FoodLog.fats).sum⟩

end NutritionAggregator

/-- JavaScript Math.round on a rational: floor of x + 1/2 (rounds half toward
positive infinity, as Math.round does). -/
def jsRound (q : ℚ) : ℤ := ⌊q + 1 / 2⌋

/-- JavaScript Number.toFixed(1) on a rational, as a rational: the nearest
tenth, ties resolved like toFixed (toward the larger numerator). -/
def toFixed1 (q : ℚ) : ℚ := ((⌊q * 10 + 1 / 2⌋ : ℤ) : ℚ) / 10

/-- The macro preview record produced by the food search modal: calories is an
integer (Math.round) and the other macros are tenths (toFixed(1)). -/
structure ComputedMacros where
  calories : ℤ
  protein : ℚ
  carbs : ℚ
  fats : ℚ
deriving DecidableEq

namespace FoodSearchModal

/-- Embedded from the FoodSearchModal component, calculateMacros: returns null
when no food is selected, the quantity field is empty or does not parse to a
positive number, or the serving size is null or zero; otherwise scales the
per-serving macros by quantity divided by serving size, rounding calories to
an integer and the other macros to one decimal. quantityNum models
parseFloat(quantity), with none for the empty or unparsable cases. -/
def calculateMacros (selectedFood : Option Food) (quantityNum : Option ℚ) :
    Option ComputedMacros :=
  match selectedFood, quantityNum with
  | some food, some q =>
    if q ≤ 0 then none
    else
      match food.serving_size with
      | none => none
      | some sz =>
        if sz = 0 then none
        else
          let r0 := q / sz
          some
            { calories := jsRound (food.calories.getD 0 * r0)
              protein := toFixed1 (food.protein.getD 0 * r0)
              carbs := toFixed1 (food.carbs.getD 0 * r0)
              fats := toFixed1 (food.fats.getD 0 * r0) }
  | _, _ => none

end FoodSearchModal

/-- HTTP method of a frontend service request. -/
inductive HttpMethod
  | get
  | post
  | delete
deriving DecidableEq

/-- Body of POST /food-logs/ (api.ts FoodLogCreateRequest). -/
structure FoodLogCreateRequest where
  food : ℤ
  date : String
  meal_type : LogMealType
  quantity_grams : ℚ
deriving DecidableEq

/-- A network request the food logging service would issue: method, path,
query parameters (kept unencoded; the source applies encodeURIComponent when
building the URL), the bearer token, and an optional JSON body. -/
structure ApiRequest where
  method : HttpMethod
  path : String
  queryParams : List (String × String)
  authToken : String
  body : Option FoodLogCreateRequest
deriving DecidableEq

namespace foodLoggingService

/-- Length of the JavaScript query.trim(): characters left after dropping
leading and trailing whitespace. -/
def trimmedLength (s : String) : ℕ :=
  ((s.data.dropWhile Char.isWhitespace).reverse.dropWhile Char.isWhitespace).length

/-- Embedded from foodLogging.ts searchFoods: validates the query length
first, then requires the localStorage token, then issues
GET /foods/search/?q=query. An error value means the function throws before
any network request. -/
def searchFoods (token : Option String) (query : String) : Except String ApiRequest :=
  if query = "" ∨ trimmedLength query < 2 then
    .error "Search query must be at least 2 characters"
  else
    match token with
    | none => .error "Authentication required"
    | some t =>
        .ok { method := .get, path := "/foods/search/",
              queryParams := [("q", query)], authToken := t, body := none }

/-- Embedded from foodLogging.ts getFoodLogs: requires the token, then issues
GET /food-logs/ with an optional date query parameter. -/
def getFoodLogs (token : Option String) (date : Option String) : Except String ApiRequest :=
  match token with
  | none => .error "Authentication required"
  | some t =>
      .ok { method := .get, path := "/food-logs/",
            queryParams := match date with | some d => [("date", d)] | none => [],
            authToken := t, body := none }

/-- Embedded from foodLogging.ts createFoodLog: requires the token, then
issues POST /food-logs/ with the JSON body. -/
def createFoodLog (token : Option String) (data : FoodLogCreateRequest) :
    Except String ApiRequest :=
  match token with
  | none => .error "Authentication required"
  | some t =>
      .ok { method := .post, path := "/food-logs/",
            queryParams := [], authToken := t, body := some data }

/-- Embedded from foodLogging.ts deleteFoodLog: requires the token, then
issues DELETE /food-logs/id/. -/
def deleteFoodLog (token : Option String) (id : ℤ) : Except String ApiRequest :=
  match token with
  | none => .error "Authentication required"
  | some t =>
      .ok { method := .delete, path := "/food-logs/" ++ toString id ++ "/",
            queryParams := [], authToken := t, body := none }

/-- Embedded from foodLogging.ts getDailyTotals: requires the token, then
issues GET /food-logs/daily_totals/ with an optional date query parameter. -/
def getDailyTotals (token : Option String) (date : Option String) : Except String ApiRequest :=
  match token with
  | none => .error "Authentication required"
  | some t =>
      .ok { method := .get, path := "/food-logs/daily_totals/",
            queryParams := match date with | some d => [("date", d)] | none => [],
            authToken := t, body := none }

end foodLoggingService

namespace DailyFoodLog

/-- Embedded from the DailyFoodLog component, getProgressPercentage: returns 0
when the target is undefined or 0 (the JavaScript !target guard), otherwise
the capped percentage min(current / target * 100, 100). -/
def getProgressPercentage (current : ℚ) (target : Option ℚ) : ℚ :=
  match target with
  | none => 0
  | some t => if t = 0 then 0 else min (current / t * 100) 100

end DailyFoodLog

/-- A 480 kcal breakfast recipe, the concrete scenario of section 8 of the
spec. -/
def recipe480 : Recipe :=
  { id := some 1
    name := "Veggie Omelette"
    ingredients := "3 eggs, spinach, cheese"
    steps := "Beat eggs. Cook."
    calories := 480
    protein := 28
    carbs := 6
    fats := 36
    prep_time_minutes := 15
    meal_type := "breakfast" }

/-- Monday breakfast slot holding recipe480. -/
def slot480 : MealSlot :=
  { id := 1
    meal_plan := 1
    day_of_week := 0
    day_name := "Monday"
    meal_type := .breakfast
    meal_name := "Breakfast"
    recipe := some 1
    recipe_detail := some recipe480
    is_leftover := false
    original_meal_slot := none
    notes := ""
    date := "2024-01-01" }

/-- One-slot plan for the Monday breakfast scenario. -/
def plan480 : MealPlan :=
  { id := 1
    user := 1
    week_start_date := "2024-01-01"
    week_end_date := "2024-01-07"
    meal_slots := [slot480] }

/-- A concrete USDA food for the macro computation scenarios: 333 kcal, 10 g
protein, 25 g carbs, 8 g fats per 100 g serving. -/
def cexFood : Food :=
  { id := 1
    fdc_id := 100001
    description := "Test Food"
    brand_owner := "Test Brand"
    barcode := "123456780001"
    ingredients := "Test ingredients"
    category := "Test Category"
    serving_size := some 100
    serving_size_unit := "g"
    calories := some 333
    protein := some 10
    carbs := some 25
    fats := some 8
    fiber := some 3
    sugars := some 5
    sodium := some 150 }

/-- One breakfast food log on 2024-01-01, for the by-meal breakdown
scenario. -/
def breakfastLog : FoodLog :=
  { id := 1
    user := 1
    food := 1
    date := "2024-01-01"
    meal_type := .breakfast
    quantity_grams := 100
    calories := 200
    protein := 10
    carbs := 25
    fats := 8 }

/-- Associativity of macro addition. -/
theorem Macros.add_assoc (a b c : Macros) : (a.add b).add c = a.add (b.add c) := by
  simp only [Macros.add, Macros.mk.injEq]
  refine ⟨by ring, by ring, by ring, by ring⟩

/-- Zero is a right unit for macro addition. -/
theorem Macros.add_zero_right (a : Macros) : a.add Macros.zero = a := by
  simp [Macros.add, Macros.zero]

/-- Zero is a left unit for macro addition. -/
theorem Macros.zero_add_left (a : Macros) : Macros.zero.add a = a := by
  simp [Macros.add, Macros.zero]

/-- Unfolding lemma for the macro list sum. -/
theorem Macros.sumList_cons (x : Macros) (l : List Macros) :
    Macros.sumList (x :: l) = x.add (Macros.sumList l) := rfl

/-- The macro list sum is invariant under permutation. -/
theorem Macros.sumList_perm {l₁ l₂ : List Macros} (h : l₁.Perm l₂) :
    Macros.sumList l₁ = Macros.sumList l₂ := by
  induction h with
  | nil => rfl
  | cons x _ ih => rw [Macros.sumList_cons, Macros.sumList_cons, ih]
  | swap x y l =>
      rw [Macros.sumList_cons, Macros.sumList_cons, Macros.sumList_cons,
        Macros.sumList_cons]
      simp only [Macros.add, Macros.mk.injEq]
      refine ⟨by ring, by ring, by ring, by ring⟩
  | trans _ _ ih₁ ih₂ => rw [ih₁, ih₂]

/-- The reduce step of getDailyTotals adds exactly the slot contribution. -/
theorem addSlot_eq_add (t : Macros) (s : MealSlot) :
    WeeklyMealPlanner.addSlot t s = t.add (WeeklyMealPlanner.slotMacros s) := by
  cases h : s.recipe_detail <;>
    simp [WeeklyMealPlanner.addSlot, WeeklyMealPlanner.slotMacros, Macros.add,
      Macros.zero, h]

/-- Folding the reduce step over a slot list sums the slot contributions. -/
theorem foldl_addSlot (l : List MealSlot) (acc : Macros) :
    l.foldl WeeklyMealPlanner.addSlot acc
      = acc.add (Macros.sumList (l.map WeeklyMealPlanner.slotMacros)) := by
  induction l generalizing acc with
  | nil =>
      rw [List.foldl_nil, List.map_nil,
        show Macros.sumList [] = Macros.zero from rfl, Macros.add_zero_right]
  | cons a t ih =>
      rw [List.foldl_cons, ih, List.map_cons, Macros.sumList_cons, addSlot_eq_add,
        Macros.add_assoc]

/-- Claim C1: for every day of a meal plan, the day totals computed by
getDailyTotals equal the sum, over that day's slots, of the full macros of
each slot's referenced recipe, each contributing exactly once; the per-slot
contribution ignores is_leftover, and a slot whose recipe_detail is a recipe
contributes exactly that recipe's macros. -/
theorem getDailyTotals_sums_each_referenced_recipe_once :
    (∀ (plan : MealPlan) (day : ℤ),
        WeeklyMealPlanner.getDailyTotals (some plan) day
          = Macros.sumList
              ((plan.meal_slots.filter (fun s => s.day_of_week == day)).map
                WeeklyMealPlanner.slotMacros))
    ∧ (∀ (s : MealSlot) (b : Bool),
        WeeklyMealPlanner.slotMacros { s with is_leftover := b }
          = WeeklyMealPlanner.slotMacros s)
    ∧ (∀ (s : MealSlot) (r : Recipe), s.recipe_detail = some r →
        WeeklyMealPlanner.slotMacros s = ⟨r.calories, r.protein, r.carbs, r.fats⟩) := by
  refine ⟨?_, ?_, ?_⟩
  · intro plan day
    show (WeeklyMealPlanner.getMealSlotsByDay (some plan) day).foldl
        WeeklyMealPlanner.addSlot ⟨0, 0, 0, 0⟩ = _
    have hp :
        ((plan.meal_slots.filter (fun s => s.day_of_week == day)).mergeSort
            (fun a b =>
              decide (WeeklyMealPlanner.mealOrder a.meal_type
                ≤ WeeklyMealPlanner.mealOrder b.meal_type))).Perm
          (plan.meal_slots.filter (fun s => s.day_of_week == day)) :=
      List.mergeSort_perm _ _
    rw [show WeeklyMealPlanner.getMealSlotsByDay (some plan) day
        = (plan.meal_slots.filter (fun s => s.day_of_week == day)).mergeSort
            (fun a b =>
              decide (WeeklyMealPlanner.mealOrder a.meal_type
                ≤ WeeklyMealPlanner.mealOrder b.meal_type)) from rfl]
    rw [foldl_addSlot, Macros.sumList_perm (hp.map WeeklyMealPlanner.slotMacros)]
    exact Macros.zero_add_left _
  · intro s b
    cases s
    rfl
  · intro s r h
    simp [WeeklyMealPlanner.slotMacros, h]

/-- Witness for C1: assigning the 480 kcal recipe to Monday breakfast makes
that slot contribute exactly 480 kcal, and the Monday totals of the one-slot
plan are 480 kcal. -/
theorem getDailyTotals_480_scenario_witness :
    WeeklyMealPlanner.slotMacros slot480 = ⟨480, 28, 6, 36⟩
    ∧ (WeeklyMealPlanner.getDailyTotals (some plan480) 0).calories = 480 := by
  have h := getDailyTotals_sums_each_referenced_recipe_once
  refine ⟨h.2.2 slot480 recipe480 rfl, ?_⟩
  rw [h.1 plan480 0]
  norm_num [plan480, slot480, recipe480, Macros.sumList, Macros.add, Macros.zero,
    WeeklyMealPlanner.slotMacros]

/-- Claim C2: the recipe generation pipeline issues at most 2 outbound LLM
calls per invocation, and when both the first attempt and the repair attempt
fail schema validation it results in GenerationFailed with no recipe
persisted. -/
theorem pipeline_two_call_cap_and_clean_failure
    (respond : ℕ → String) (validate : String → Option Recipe) :
    (RecipeGenerationPipeline.run respond validate).llmCalls ≤ 2
    ∧ (validate (respond 0) = none → validate (respond 1) = none →
        (RecipeGenerationPipeline.run respond validate).result
            = .error .GenerationFailed
        ∧ (RecipeGenerationPipeline.run respond validate).persistedRecipes = []) := by
  constructor
  · cases h0 : validate (respond 0) with
    | some r => simp [RecipeGenerationPipeline.run, h0]
    | none =>
        cases h1 : validate (respond 1) with
        | some r => simp [RecipeGenerationPipeline.run, h0, h1]
        | none => simp [RecipeGenerationPipeline.run, h0, h1]
  · intro h0 h1
    simp [RecipeGenerationPipeline.run, h0, h1]

/-- Witness for C2: with two unparsable responses the pipeline stays within
the two-call cap, fails with GenerationFailed and persists nothing. -/
theorem pipeline_two_call_cap_witness :
    (RecipeGenerationPipeline.run (fun _ => "not json") (fun _ => none)).llmCalls ≤ 2
    ∧ (RecipeGenerationPipeline.run (fun _ => "not json") (fun _ => none)).result
        = .error .GenerationFailed
    ∧ (RecipeGenerationPipeline.run (fun _ => "not json")
        (fun _ => none)).persistedRecipes = [] := by
  have h := pipeline_two_call_cap_and_clean_failure (fun _ => "not json") (fun _ => none)
  exact ⟨h.1, (h.2 rfl rfl).1, (h.2 rfl rfl).2⟩

/-- Claim C3: applying the clear-slot PATCH body resets all four mutable
fields together in one update: recipe null, is_leftover false,
original_meal_slot null and empty notes, while the identity of the slot
(id, day, meal type, date) is untouched. -/
theorem clearSlot_resets_all_four_fields_together (s : MealSlot) :
    (mealPlanningService.applyMealSlotPatch s
        mealPlanningService.clearMealSlotBody).recipe = none
    ∧ (mealPlanningService.applyMealSlotPatch s
        mealPlanningService.clearMealSlotBody).is_leftover = false
    ∧ (mealPlanningService.applyMealSlotPatch s
        mealPlanningService.clearMealSlotBody).original_meal_slot = none
    ∧ (mealPlanningService.applyMealSlotPatch s
        mealPlanningService.clearMealSlotBody).notes = ""
    ∧ (mealPlanningService.applyMealSlotPatch s
        mealPlanningService.clearMealSlotBody).recipe_detail = none
    ∧ (mealPlanningService.applyMealSlotPatch s
        mealPlanningService.clearMealSlotBody).id = s.id
    ∧ (mealPlanningService.applyMealSlotPatch s
        mealPlanningService.clearMealSlotBody).day_of_week = s.day_of_week
    ∧ (mealPlanningService.applyMealSlotPatch s
        mealPlanningService.clearMealSlotBody).meal_type = s.meal_type
    ∧ (mealPlanningService.applyMealSlotPatch s
        mealPlanningService.clearMealSlotBody).date = s.date := by
  simp [mealPlanningService.applyMealSlotPatch, mealPlanningService.clearMealSlotBody]

/-- Claim C4: the resolved weekly meal plan built by the mock factories has
exactly 21 slots, exactly one per pair of the 7 days (day_of_week 0..6) and
the 3 meal types, 7 distinct slot dates, and its week_end_date is exactly
6 days after its week_start_date. -/
theorem mock_week_plan_has_21_slots_and_six_day_span :
    testUtils.createMockMealPlan.meal_slots.length = 21
    ∧ (∀ (d : Fin 7) (mt : SlotMealType),
        (testUtils.createMockMealPlan.meal_slots.filter
          (fun s => s.day_of_week == ((d : ℕ) : ℤ) && s.meal_type == mt)).length = 1)
    ∧ (testUtils.createMockMealPlan.meal_slots.all
        (fun s => decide (0 ≤ s.day_of_week ∧ s.day_of_week ≤ 6))) = true
    ∧ (testUtils.createMockMealPlan.meal_slots.map (fun s => s.date)).dedup.length = 7
    ∧ dateOrdinal testUtils.createMockMealPlan.week_end_date
        = (dateOrdinal testUtils.createMockMealPlan.week_start_date).map
            (fun n => n + 6) := by
  refine ⟨by decide, by decide, by decide, by decide, by decide⟩

/-- Counterexample to C5 as stated: on a generation failure the component
shows the fixed message Failed to generate recipe. Please try again., which is
not the claimed text Could not generate a recipe. Please try again. -/
theorem generation_error_message_text_counterexample :
    (RecipeGenerator.onSubmitOutcome (.error "raw model output")).generateError
      = "Failed to generate recipe. Please try again."
    ∧ ("Failed to generate recipe. Please try again." : String)
      ≠ "Could not generate a recipe. Please try again." := by
  exact ⟨rfl, by decide⟩

/-- Claim C5 (amended): whenever recipe generation fails, the user-facing
error is the single fixed message Failed to generate recipe. Please try
again.; the resulting component state does not depend on the error payload at
all (so the raw model output is never exposed), and no recipe is shown. -/
theorem generation_failure_shows_fixed_message_hiding_raw_output (e : String) :
    (RecipeGenerator.onSubmitOutcome (.error e)).generateError
      = "Failed to generate recipe. Please try again."
    ∧ RecipeGenerator.onSubmitOutcome (.error e)
      = RecipeGenerator.onSubmitOutcome (.error "")
    ∧ (RecipeGenerator.onSubmitOutcome (.error e)).generatedRecipe = none := by
  exact ⟨rfl, rfl, rfl⟩

/-- Claim C6: in the per-meal breakdown of the daily nutrition totals, a meal
type with zero food logs for the date reports null for each of the four
macros, and a meal type with at least one log reports a non-null value for
each macro. -/
theorem by_meal_breakdown_null_iff_no_logs (date : String) (mt : LogMealType)
    (logs : List FoodLog) :
    (NutritionAggregator.logsFor date mt logs = [] →
      NutritionAggregator.byMealTotals date mt logs = ⟨none, none, none, none⟩)
    ∧ (NutritionAggregator.logsFor date mt logs ≠ [] →
      (NutritionAggregator.byMealTotals date mt logs).calories.isSome = true
      ∧ (NutritionAggregator.byMealTotals date mt logs).protein.isSome = true
      ∧ (NutritionAggregator.byMealTotals date mt logs).carbs.isSome = true
      ∧ (NutritionAggregator.byMealTotals date mt logs).fats.isSome = true) := by
  cases h : NutritionAggregator.logsFor date mt logs with
  | nil =>
      exact ⟨fun _ => by simp [NutritionAggregator.byMealTotals, h],
        fun hne => absurd rfl hne⟩
  | cons a t =>
      refine ⟨fun hh => absurd hh (by simp [h]), fun _ => ?_⟩
      simp [NutritionAggregator.byMealTotals, h]

/-- Witness for C6: with a single breakfast log on 2024-01-01, the snack
breakdown for that date is all null while the breakfast calories are
non-null. -/
theorem by_meal_breakdown_null_witness :
    NutritionAggregator.logsFor "2024-01-01" .snack [breakfastLog] = []
    ∧ NutritionAggregator.byMealTotals "2024-01-01" .snack [breakfastLog]
        = ⟨none, none, none, none⟩
    ∧ (NutritionAggregator.byMealTotals "2024-01-01" .breakfast
        [breakfastLog]).calories.isSome = true := by
  have h1 := (by_meal_breakdown_null_iff_no_logs "2024-01-01" .snack [breakfastLog]).1
  have h2 :=
    (by_meal_breakdown_null_iff_no_logs "2024-01-01" .breakfast [breakfastLog]).2
  exact ⟨rfl, h1 rfl, (h2 (by decide)).1⟩

/-- Rounding error bound for the JavaScript Math.round model. -/
theorem jsRound_err (x : ℚ) : |((jsRound x : ℤ) : ℚ) - x| ≤ 1 / 2 := by
  rw [abs_le]
  constructor
  · have h := Int.lt_floor_add_one (x + 1 / 2)
    simp only [jsRound]
    push_cast at h ⊢
    linarith
  · have h := Int.floor_le (x + 1 / 2)
    simp only [jsRound]
    push_cast at h ⊢
    linarith

/-- Rounding error bound for the toFixed(1) model. -/
theorem toFixed1_err (x : ℚ) : |toFixed1 x - x| ≤ 1 / 20 := by
  have h := jsRound_err (10 * x)
  have hx : toFixed1 x - x = (((jsRound (10 * x) : ℤ) : ℚ) - 10 * x) / 10 := by
    unfold toFixed1 jsRound
    rw [mul_comm x 10]
    ring
  rw [hx, abs_div]
  have h10 : |(10 : ℚ)| = 10 := by norm_num
  rw [h10]
  linarith

/-- Counterexample to C7 as stated: for the 333 kcal per 100 g food logged at
50 g, the computed calories are 167, not the exact product 333 times 50/100
(which is 166.5): the computation rounds. -/
theorem calculateMacros_not_exact_counterexample :
    (FoodSearchModal.calculateMacros (some cexFood) (some 50)).map
        ComputedMacros.calories = some 167
    ∧ ((167 : ℚ) ≠ cexFood.calories.getD 0 * (50 / 100)) := by
  constructor
  · norm_num [FoodSearchModal.calculateMacros, cexFood, jsRound]
  · norm_num [cexFood]

/-- Claim C7 (amended): for every selected food with non-null serving size and
every parsed positive quantity, the computed macros are the per-serving
macros scaled by quantity over serving size and then rounded for display:
calories to the nearest integer (within 1/2 kcal of the exact product) and
protein, carbs and fats to one decimal (within 1/20 g of the exact
products), rather than exactly equal to the products. -/
theorem calculateMacros_rounds_exact_products (food : Food) (q sz : ℚ)
    (m : ComputedMacros) (hsz : food.serving_size = some sz)
    (hm : FoodSearchModal.calculateMacros (some food) (some q) = some m) :
    |((m.calories : ℤ) : ℚ) - food.calories.getD 0 * (q / sz)| ≤ 1 / 2
    ∧ |m.protein - food.protein.getD 0 * (q / sz)| ≤ 1 / 20
    ∧ |m.carbs - food.carbs.getD 0 * (q / sz)| ≤ 1 / 20
    ∧ |m.fats - food.fats.getD 0 * (q / sz)| ≤ 1 / 20 := by
  simp only [FoodSearchModal.calculateMacros] at hm
  rw [hsz] at hm
  by_cases hq : q ≤ 0
  · simp [hq] at hm
  · simp only [if_neg hq] at hm
    by_cases hsz0 : sz = 0
    · simp [hsz0] at hm
    · simp only [if_neg hsz0, Option.some.injEq] at hm
      subst hm
      exact ⟨jsRound_err _, toFixed1_err _, toFixed1_err _, toFixed1_err _⟩

/-- Witness for C7 (amended): the concrete food at 50 g satisfies the bounds,
with computed macros 167 kcal, 5 g protein, 12.5 g carbs and 4 g fats. -/
theorem calculateMacros_rounds_witness :
    cexFood.serving_size = some 100
    ∧ FoodSearchModal.calculateMacros (some cexFood) (some 50)
        = some ⟨167, 5, 25 / 2, 4⟩
    ∧ |(((167 : ℤ) : ℚ)) - cexFood.calories.getD 0 * (50 / 100)| ≤ 1 / 2
    ∧ |(5 : ℚ) - cexFood.protein.getD 0 * (50 / 100)| ≤ 1 / 20
    ∧ |(25 / 2 : ℚ) - cexFood.carbs.getD 0 * (50 / 100)| ≤ 1 / 20
    ∧ |(4 : ℚ) - cexFood.fats.getD 0 * (50 / 100)| ≤ 1 / 20 := by
  have hev : FoodSearchModal.calculateMacros (some cexFood) (some 50)
      = some ⟨167, 5, 25 / 2, 4⟩ := by
    norm_num [FoodSearchModal.calculateMacros, cexFood, jsRound, toFixed1]
  have h := calculateMacros_rounds_exact_products cexFood 50 100 ⟨167, 5, 25 / 2, 4⟩
    rfl hev
  exact ⟨rfl, hev, h.1, h.2.1, h.2.2.1, h.2.2.2⟩

/-- Claim C8: week navigation shifts the reference date by exactly +7 days
for next and -7 days for prev, so navigating next then prev (or prev then
next) returns to the original reference date. -/
theorem navigateWeek_shifts_exactly_seven_days (d : ℤ) :
    WeeklyMealPlanner.navigateWeek d .next = d + 7
    ∧ WeeklyMealPlanner.navigateWeek d .prev = d - 7
    ∧ WeeklyMealPlanner.navigateWeek (WeeklyMealPlanner.navigateWeek d .next) .prev = d
    ∧ WeeklyMealPlanner.navigateWeek (WeeklyMealPlanner.navigateWeek d .prev) .next
        = d := by
  refine ⟨?_, ?_, ?_, ?_⟩ <;> (simp only [WeeklyMealPlanner.navigateWeek]; try omega)

/-- Counterexample to C9 as stated: searchFoods with no token but a 1-letter
query throws the query-length error, not Authentication required, because the
query length is validated before the token check. -/
theorem searchFoods_query_checked_before_token_counterexample :
    foodLoggingService.searchFoods none "a"
      = .error "Search query must be at least 2 characters"
    ∧ ("Search query must be at least 2 characters" : String)
      ≠ "Authentication required" := by
  exact ⟨rfl, by decide⟩

/-- Claim C9 (amended): searchFoods validates the query length before the
token, so a query whose trimmed length is under 2 always throws the
query-length error without any network request, even when the token is also
missing; in every other missing-token case, each of the five operations
throws Authentication required before issuing any network request. -/
theorem foodLogging_auth_and_query_gates :
    (∀ q : String, ¬(q = "" ∨ foodLoggingService.trimmedLength q < 2) →
        foodLoggingService.searchFoods none q = .error "Authentication required")
    ∧ (∀ (q : String) (t : Option String),
        (q = "" ∨ foodLoggingService.trimmedLength q < 2) →
        foodLoggingService.searchFoods t q
          = .error "Search query must be at least 2 characters")
    ∧ (∀ d : Option String,
        foodLoggingService.getFoodLogs none d = .error "Authentication required")
    ∧ (∀ b : FoodLogCreateRequest,
        foodLoggingService.createFoodLog none b = .error "Authentication required")
    ∧ (∀ i : ℤ,
        foodLoggingService.deleteFoodLog none i = .error "Authentication required")
    ∧ (∀ d : Option String,
        foodLoggingService.getDailyTotals none d
          = .error "Authentication required") := by
  refine ⟨?_, ?_, fun d => rfl, fun b => rfl, fun i => rfl, fun d => rfl⟩
  · intro q hq
    simp [foodLoggingService.searchFoods, hq]
  · intro q t hq
    simp [foodLoggingService.searchFoods, hq]

/-- Witness for C9 (amended): concrete calls for each operation with no token
(and the short-query case with a token present). -/
theorem foodLogging_auth_gate_witness :
    foodLoggingService.searchFoods none "ok" = .error "Authentication required"
    ∧ foodLoggingService.searchFoods (some "tok") "a"
        = .error "Search query must be at least 2 characters"
    ∧ foodLoggingService.getFoodLogs none (some "2024-01-01")
        = .error "Authentication required"
    ∧ foodLoggingService.createFoodLog none ⟨1, "2024-01-01", .breakfast, 100⟩
        = .error "Authentication required"
    ∧ foodLoggingService.deleteFoodLog none 5 = .error "Authentication required"
    ∧ foodLoggingService.getDailyTotals none none
        = .error "Authentication required" := by
  have h := foodLogging_auth_and_query_gates
  exact ⟨h.1 "ok" (by decide), h.2.1 "a" (some "tok") (by decide),
    h.2.2.1 (some "2024-01-01"), h.2.2.2.1 ⟨1, "2024-01-01", .breakfast, 100⟩,
    h.2.2.2.2.1 5, h.2.2.2.2.2 none⟩

/-- Claim C10: the daily-progress percentage computation is total: it returns
0 when the target is undefined or 0, otherwise the capped percentage; and for
non-negative current and target the result always lies in the interval
from 0 to 100. -/
theorem getProgressPercentage_total_and_in_range (current : ℚ) (hc : 0 ≤ current) :
    DailyFoodLog.getProgressPercentage current none = 0
    ∧ DailyFoodLog.getProgressPercentage current (some 0) = 0
    ∧ (∀ t : ℚ, t ≠ 0 →
        DailyFoodLog.getProgressPercentage current (some t)
          = min (current / t * 100) 100)
    ∧ (∀ t : ℚ, 0 ≤ t →
        0 ≤ DailyFoodLog.getProgressPercentage current (some t)
        ∧ DailyFoodLog.getProgressPercentage current (some t) ≤ 100) := by
  refine ⟨rfl, by simp [DailyFoodLog.getProgressPercentage], ?_, ?_⟩
  · intro t ht
    simp [DailyFoodLog.getProgressPercentage, ht]
  · intro t ht
    rcases eq_or_lt_of_le ht with h0 | hpos
    · simp [DailyFoodLog.getProgressPercentage, ← h0]
    · have hne : t ≠ 0 := ne_of_gt hpos
      simp only [DailyFoodLog.getProgressPercentage, if_neg hne]
      constructor
      · exact le_min (by positivity) (by norm_num)
      · exact min_le_right _ _

/-- Witness for C10: at current 150 and target 100 the percentage is within
the interval, and the degenerate targets give 0. -/
theorem getProgressPercentage_witness :
    (0 : ℚ) ≤ 150
    ∧ DailyFoodLog.getProgressPercentage 150 none = 0
    ∧ DailyFoodLog.getProgressPercentage 150 (some 0) = 0
    ∧ (0 ≤ DailyFoodLog.getProgressPercentage 150 (some 100)
        ∧ DailyFoodLog.getProgressPercentage 150 (some 100) ≤ 100) := by
  have h := getProgressPercentage_total_and_in_range 150 (by norm_num)
  exact ⟨by norm_num, h.1, h.2.1, h.2.2.2 100 (by norm_num)⟩

end NutriAI
